import Mathlib

/-!
Verification of the sumo-wrapper-python token/request layer.

Shallow embedding of the authentication-strategy selection, token providers,
HTTP error taxonomy and request methods of `sumo-wrapper-python`, together
with theorems settling the specification claims about them.

Machine conventions:
* Python `None` / missing values are `Option.none`; Python truthiness of
  strings, bytes and dicts is made explicit (`truthyStr`, `truthyBytes`,
  `truthyDict`).
* Wall-clock timestamps are integers (seconds).
* Side effects (identity-provider calls, HTTP requests to the target API,
  chmod, printing) are collected in explicit effect traces.
* External collaborators (the msal library, HTTP responses) are modelled as
  oracle inputs; the embedded code is the repository's control flow over them.
-/

namespace SumoWrapper

/-! ## Python value modelling -/

/-- Python truthiness of an optional string: `None` and `""` are falsy. -/
def truthyStr : Option String → Bool
  | none => false
  | some s => !s.isEmpty

/-- Python truthiness of an optional bytes payload: `None` and `b""` are falsy. -/
def truthyBytes : Option (List Nat) → Bool
  | none => false
  | some b => !b.isEmpty

/-- Python truthiness of an optional dict payload: `None` and `{}` (empty) are falsy. -/
def truthyDict : Option (List (String × String)) → Bool
  | none => false
  | some d => !d.isEmpty

/-- Python `needle in hay` on character lists (contiguous-substring test). -/
def listContains (needle : List Char) : List Char → Bool
  | [] => needle.isEmpty
  | c :: t => needle.isPrefixOf (c :: t) || listContains needle t

/-- Python substring membership `needle in hay` on strings. -/
def pyIn (needle hay : String) : Bool := listContains needle.data hay.data

/-! ## `_request_error.py` -/

/-- The error taxonomy of `_request_error.py`: `TransientError`,
`AuthenticationError`, `PermanentError` (all subclasses of `RequestError`). -/
inductive RequestErrorKind
  | transient
  | authentication
  | permanent
  deriving Repr, DecidableEq

/-- Embeds `raise_request_error_exception` (`_request_error.py` lines 46-57): maps a
status code to the kind of `RequestError` raised. -/
def raise_request_error_exception (code : Nat) : RequestErrorKind :=
  if (503 ≤ code ∧ code ≤ 504) ∨ code = 404 ∨ code = 500 then .transient
  else if 401 ≤ code ∧ code ≤ 403 then .authentication
  else .permanent

namespace Old

/-- Embeds `SumoClient._raise_request_error_exception` (`_sumo_client.py` lines
172-185), the older client's own copy of the classifier. -/
def raise_request_error_exception (code : Nat) : RequestErrorKind :=
  if (503 ≤ code ∧ code ≤ 504) ∨ code = 404 ∨ code = 500 then .transient
  else if 401 ≤ code ∧ code ≤ 403 then .authentication
  else .permanent

end Old

/-- The Python exceptions the embedded code can raise.  `requestError` carries
the taxonomy kind and the status code; the spec's `TokenError` abstraction
corresponds to the `valueError` cases raised on token-acquisition failure. -/
inductive PyErr
  | valueError (msg : String)
  | requestError (kind : RequestErrorKind) (code : Nat)
  | keyError
  | indexError
  | typeError
  | attributeError
  deriving Repr, DecidableEq

/-- Whether an `Except` result is an error. -/
def isErr {α : Type} : Except PyErr α → Bool
  | .error _ => true
  | .ok _ => false

/-! ## Observable effects -/

/-- Observable side effects of the embedded operations.  `silentAcquire` is
msal's `acquire_token_silent`, which may be served from the in-memory cache;
the exchange/interactive/device effects are HTTP calls to the identity
provider; `apiRequest` is an HTTP request to the target (Sumo) API. -/
inductive Effect
  | silentAcquire (scope : String)
  | refreshExchange (scope : String)
  | interactiveAcquire (scope : String)
  | deviceFlowInit (scope : String)
  | deviceFlowAcquire (scope : String)
  | printMsg (s : String)
  | chmodFile (mode : Nat)
  | chmodDir (mode : Nat)
  | apiRequest (verb : String) (path : String) (contentType : String)
  deriving Repr, DecidableEq

/-- Whether an effect is observable network activity.  `silentAcquire` is
conservatively counted as non-network (msal may answer from its cache);
the other identity-provider calls and the target-API request always are. -/
def Effect.isNetwork : Effect → Bool
  | .refreshExchange _ => true
  | .interactiveAcquire _ => true
  | .deviceFlowInit _ => true
  | .deviceFlowAcquire _ => true
  | .apiRequest _ _ _ => true
  | _ => false

/-- Whether an effect is an HTTP request to the target (Sumo) API. -/
def Effect.isApiRequest : Effect → Bool
  | .apiRequest _ _ _ => true
  | _ => false

/-- Whether an effect is the refresh-token exchange call. -/
def Effect.isRefreshExchange : Effect → Bool
  | .refreshExchange _ => true
  | _ => false

/-- The OAuth scope an identity-provider effect carries, if any. -/
def Effect.scopeOf : Effect → Option String
  | .silentAcquire s => some s
  | .refreshExchange s => some s
  | .interactiveAcquire s => some s
  | .deviceFlowInit s => some s
  | .deviceFlowAcquire s => some s
  | _ => none

/-- A trace contains no HTTP request to the target API. -/
def noApiRequest (l : List Effect) : Bool := l.all (fun e => !e.isApiRequest)

/-! ## msal oracle model -/

/-- Model of an msal result dictionary: whether the `error` key is present
(and its value), and whether the `access_token` key is present. -/
structure MsalResult where
  error : Option String
  accessToken : Option String
  deriving Repr, DecidableEq

/-- Model of an msal `PublicClientApplication` as an oracle: the accounts it
reports and the result `acquire_token_silent` would return (`none` models the
Python `None` returned when silent acquisition finds nothing). -/
structure MsalApp where
  accounts : List String
  silentResult : Option MsalResult
  deriving Repr, DecidableEq

/-! ## `_auth_provider.py` -/

/-- Embeds `scope_for_resource` (`_auth_provider.py` lines 17-18). -/
def scope_for_resource (resource_id : String) : String :=
  resource_id ++ "/.default offline_access"

/-- The four managed-identity environment variables inspected by
`get_auth_provider` (values as returned by `os.getenv`). -/
structure EnvVars where
  azureFederatedTokenFile : Option String
  azureTenantId : Option String
  azureClientId : Option String
  azureAuthorityHost : Option String
  deriving Repr, DecidableEq

/-- Embeds `all([os.getenv(x) for x in [...]])` (`_auth_provider.py` lines 215-225):
all four variables present with non-empty (truthy) values. -/
def managedEnvSet (e : EnvVars) : Bool :=
  truthyStr e.azureFederatedTokenFile && truthyStr e.azureTenantId &&
    truthyStr e.azureClientId && truthyStr e.azureAuthorityHost

/-- The five authentication strategies of `_auth_provider.py`. -/
inductive AuthStrategy
  | managed
  | refreshTok
  | accessTok
  | interactive
  | deviceCode
  deriving Repr, DecidableEq

/-- Embeds `get_auth_provider` (`_auth_provider.py` lines 207-239): which provider
class is constructed for a given combination of inputs. -/
def get_auth_provider (env : EnvVars) (client_id authority resource_id : String)
    (interactive : Bool) (access_token refresh_token : Option String) : AuthStrategy :=
  if managedEnvSet env then .managed
  else if truthyStr refresh_token then .refreshTok
  else if truthyStr access_token then .accessTok
  else if interactive then .interactive
  else .deviceCode

/-- A JWT as seen by `jwt.decode(..., verify_signature False)`: a header, a
payload whose `exp` claim we keep, and a signature. -/
structure Jwt where
  header : String
  payloadExp : Int
  signature : String
  deriving Repr, DecidableEq

/-- Embeds `jwt.decode(access_token, options with verify_signature False)["exp"]`:
reads the expiry claim of the payload; the signature is not inspected. -/
def jwtDecodeExp (t : Jwt) : Int := t.payloadExp

/-- State of `AuthProviderAccessToken` (`_auth_provider.py` lines 41-54):
the caller-supplied token and the decoded expiry claim. -/
structure AuthProviderAccessToken where
  access_token : Jwt
  expires : Int
  deriving Repr, DecidableEq

/-- Embeds `AuthProviderAccessToken.__init__` (lines 42-46): stores the token and
decodes its `exp` claim without verifying the signature. -/
def AuthProviderAccessToken.init (access_token : Jwt) : AuthProviderAccessToken :=
  ⟨access_token, jwtDecodeExp access_token⟩

/-- Embeds `AuthProviderAccessToken.get_token` (lines 48-52): raises once current
time has reached the expiry, otherwise returns the stored token unchanged;
performs no effect in either case. -/
def AuthProviderAccessToken.get_token (p : AuthProviderAccessToken) (now : Int) :
    Except PyErr Jwt × List Effect :=
  if now ≥ p.expires then (.error (.valueError "Access token has expired."), [])
  else (.ok p.access_token, [])

/-- Embeds `AuthProvider.get_token` (`_auth_provider.py` lines 27-36): the shared
silent-acquisition path.  `accounts[0]` raises `IndexError` when there are no
accounts (before any msal call); an `error` key in the silent result raises
`ValueError`; a missing `access_token` key raises `KeyError`; a Python `None`
silent result makes the `"error" in result` test raise `TypeError`. -/
def AuthProvider.get_token (scope : String) (app : MsalApp) :
    Except PyErr String × List Effect :=
  match app.accounts with
  | [] => (.error .indexError, [])
  | _ :: _ =>
    match app.silentResult with
    | none => (.error .typeError, [.silentAcquire scope])
    | some r =>
      if r.error.isSome then
        (.error (.valueError "Failed to silently acquire token."), [.silentAcquire scope])
      else
        match r.accessToken with
        | some t => (.ok t, [.silentAcquire scope])
        | none => (.error .keyError, [.silentAcquire scope])

/-- State of `AuthProviderRefreshToken` after construction. -/
structure AuthProviderRefreshToken where
  scope : String
  app : MsalApp
  deriving Repr, DecidableEq

/-- Embeds `AuthProviderRefreshToken.__init__` (`_auth_provider.py` lines 58-65):
sets the scope, creates the msal app (modelled by the oracle `app`, whose
state already reflects the exchange), performs one
`acquire_token_by_refresh_token` call and discards its result
(`exchangeResult`): the constructor never inspects it, so it cannot fail on
an erroring exchange. -/
def AuthProviderRefreshToken.init (refresh_token client_id authority resource_id : String)
    (app : MsalApp) (exchangeResult : MsalResult) :
    Except PyErr (AuthProviderRefreshToken × List Effect) :=
  .ok (⟨scope_for_resource resource_id, app⟩,
       [.refreshExchange (scope_for_resource resource_id)])

/-- Embedding of `AuthProviderRefreshToken.get_token`: inherited from `AuthProvider`
(the silent-acquisition path). -/
def AuthProviderRefreshToken.get_token (p : AuthProviderRefreshToken) :
    Except PyErr String × List Effect :=
  AuthProvider.get_token p.scope p.app

/-! ## Token-cache permission hardening -/

/-- POSIX permission bits of the token-cache file and its directory. -/
structure FsState where
  fileMode : Nat
  dirMode : Nat
  deriving Repr, DecidableEq

/-- Embeds `protect_token_cache` (`_auth_provider.py` lines 109-123), Linux path:
the directory-mode check is nested inside the file-mode check, so nothing at
all happens when the file is already mode 0600. -/
def protect_token_cache (fs : FsState) : FsState × List Effect :=
  if fs.fileMode ≠ 0o600 then
    if fs.dirMode ≠ 0o700 then
      (⟨0o600, 0o700⟩, [.chmodFile 0o600, .chmodDir 0o700])
    else
      (⟨0o600, fs.dirMode⟩, [.chmodFile 0o600])
  else (fs, [])

/-- Embeds `AuthProviderDeviceCode.login` (`_auth_provider.py` lines 169-189), with
the device flow and its result as oracles: initiate the flow (raising if the
flow payload has an `error` key), print the instructions, acquire by device
flow (raising on an `error` key), then harden the cache permissions via
`protect_token_cache`. -/
def AuthProviderDeviceCode.login (scope : String) (flowError : Option String)
    (flowMessage : String) (result : MsalResult) (fs : FsState) :
    Except PyErr Unit × List Effect × FsState :=
  if flowError.isSome then
    (.error (.valueError "Failed to create device flow."), [.deviceFlowInit scope], fs)
  else if result.error.isSome then
    (.error (.valueError "Failed to acquire token by device flow."),
     [.deviceFlowInit scope, .printMsg flowMessage, .deviceFlowAcquire scope], fs)
  else
    match protect_token_cache fs with
    | (fs2, effs) =>
      (.ok (),
       [.deviceFlowInit scope, .printMsg flowMessage, .deviceFlowAcquire scope] ++ effs,
       fs2)

/-! ## `_auth.py` (older auth generation) -/

namespace Auth

/-- Embeds `self.scope = self.resource_id + "/.default"` (`_auth.py` line 35). -/
def scopeOfResource (resource_id : String) : String := resource_id ++ "/.default"

/-- Embeds `_set_expiring_date` (`_auth.py` lines 142-153) with its threshold of 60
seconds: the expiring date is `now + (time_left - threshold)`. -/
def set_expiring_date (now time_left : Int) : Int := now + (time_left - 60)

/-- The `Auth` session state relevant to `get_token`: the held msal result
(`self.result`) and `self.expiring_date`. -/
structure St where
  result : MsalResult
  expiring_date : Int
  deriving Repr, DecidableEq

/-- Embeds `is_token_expired` (`_auth.py` lines 100-107):
`datetime.datetime.now() > self.expiring_date`. -/
def is_token_expired (st : St) (now : Int) : Bool := now > st.expiring_date

/-- Oracle outcome for one `acquire_token_silent_with_error` call: the result
dictionary and its `expires_in` value. -/
structure SilentOutcome where
  result : MsalResult
  expires_in : Int
  deriving Repr, DecidableEq

/-- Embeds `_oauth_get_token_silent` (`_auth.py` lines 109-140) as a state update:
`self.result` is overwritten with the msal result; on success (an
`access_token` key present) the expiring date is recomputed and `True`
returned, otherwise `False`.  (The token-file security check and the
writeback branch are not modelled.) -/
def oauth_get_token_silent (st : St) (now : Int) (o : SilentOutcome) (scope : String) :
    St × Bool × List Effect :=
  let st1 : St := ⟨o.result, st.expiring_date⟩
  if o.result.accessToken.isSome then
    (⟨o.result, set_expiring_date now o.expires_in⟩, true, [.silentAcquire scope])
  else (st1, false, [.silentAcquire scope])

/-- Embeds `get_token` (`_auth.py` lines 84-98): silently re-acquire only when the
held token is expired (the boolean returned by the silent call is ignored),
then return `self.result["access_token"]` (raising `KeyError` if absent). -/
def get_token (st : St) (now : Int) (o : SilentOutcome) (scope : String) :
    Except PyErr String × St × List Effect :=
  let (st1, effs) :=
    if is_token_expired st now then
      match oauth_get_token_silent st now o scope with
      | (st2, _ok, effs2) => (st2, effs2)
    else (st, [])
  match st1.result.accessToken with
  | some t => (.ok t, st1, effs)
  | none => (.error .keyError, st1, effs)

/-- Embeds `_write_cache` (`_auth.py` lines 188-203): after writing the file, on
non-Windows platforms the file is chmodded to 0600 and its directory to 0700,
unconditionally. -/
def write_cache (fs : FsState) : FsState × List Effect :=
  (⟨0o600, 0o700⟩, [.chmodFile 0o600, .chmodDir 0o700])

end Auth

/-! ## `_sumo_client.py` (older client) -/

namespace Old

/-- The old `SumoClient` state relevant to `_retrieve_token`. -/
structure ClientSt where
  user_provided_access_token : Option String
  access_token : String
  auth : Auth.St
  deriving Repr, DecidableEq

/-- Embeds `SumoClient._retrieve_token` (`_sumo_client.py` lines 50-60): a truthy
user-provided token is returned as-is; otherwise the held token is
regenerated through `Auth.get_token` only when `Auth.is_token_expired`. -/
def retrieve_token (cs : ClientSt) (now : Int) (o : Auth.SilentOutcome) (scope : String) :
    Except PyErr String × ClientSt × List Effect :=
  if truthyStr cs.user_provided_access_token then
    (.ok (cs.user_provided_access_token.getD ""), cs, [])
  else if Auth.is_token_expired cs.auth now then
    match Auth.get_token cs.auth now o scope with
    | (.ok t, a2, effs) => (.ok t, ⟨cs.user_provided_access_token, t, a2⟩, effs)
    | (.error e, a2, effs) => (.error e, ⟨cs.user_provided_access_token, cs.access_token, a2⟩, effs)
  else (.ok cs.access_token, cs, [])

end Old

/-! ## `_new_auth.py` -/

namespace NewAuth

/-- Embeds `self.scope = resource_id + "/.default"` (`_new_auth.py` line 45). -/
def mkScope (resource_id : String) : String := resource_id ++ "/.default"

/-- Embeds `NewAuth` state: configuration, msal oracles for each acquisition path,
and the cache-file permission state consulted by the Linux hardening block. -/
structure State where
  scope : String
  refresh_token : Option String
  interactive : Bool
  accounts : List String
  silentResult : Option MsalResult
  refreshResult : MsalResult
  interactiveResult : MsalResult
  deviceFlowError : Option String
  deviceFlowMessage : String
  deviceResult : MsalResult
  fs : FsState
  deriving Repr, DecidableEq

/-- Result of `NewAuth.get_token`. -/
structure Out where
  result : Except PyErr String
  effects : List Effect
  fs : FsState
  deriving Repr

/-- Embeds `NewAuth.get_token` lines 148-155: the Linux cache-permission hardening
run before returning.  The file is chmodded to 0600 when its mode differs;
the directory check is independent and the directory chmodded to 0700 when
its mode differs. -/
def harden (fs : FsState) : FsState × List Effect :=
  if fs.fileMode ≠ 0o600 then
    if fs.dirMode ≠ 0o700 then
      (⟨0o600, 0o700⟩, [.chmodFile 0o600, .chmodDir 0o700])
    else (⟨0o600, fs.dirMode⟩, [.chmodFile 0o600])
  else
    if fs.dirMode ≠ 0o700 then (⟨fs.fileMode, 0o700⟩, [.chmodDir 0o700])
    else (fs, [])

/-- The tail of `NewAuth.get_token` (lines 148-157): harden the cache
permissions, then `return result["access_token"]` (raising `KeyError` if the
key is absent). -/
def finish (st : State) (r : MsalResult) (effs : List Effect) : Out :=
  match harden st.fs with
  | (fs2, effs2) =>
    match r.accessToken with
    | some t => ⟨.ok t, effs ++ effs2, fs2⟩
    | none => ⟨.error .keyError, effs ++ effs2, fs2⟩

/-- Embeds `NewAuth.get_token` (`_new_auth.py` lines 86-157): try silent acquisition
when accounts exist; when that yields nothing, exchange the caller-supplied
refresh token, or run the interactive flow, or run the device-code flow, each
raising `ValueError` on an `error` key in its result; finally harden the
cache permissions and return the access token. -/
def get_token (st : State) : Out :=
  let effs0 : List Effect :=
    match st.accounts with
    | [] => []
    | _ :: _ => [.silentAcquire st.scope]
  let result : Option MsalResult :=
    match st.accounts with
    | [] => none
    | _ :: _ => st.silentResult
  match result with
  | some r => finish st r effs0
  | none =>
    if truthyStr st.refresh_token then
      if st.refreshResult.error.isSome then
        ⟨.error (.valueError "Failed to acquire token by refresh token."),
         effs0 ++ [.refreshExchange st.scope], st.fs⟩
      else finish st st.refreshResult (effs0 ++ [.refreshExchange st.scope])
    else if st.interactive then
      if st.interactiveResult.error.isSome then
        ⟨.error (.valueError "Failed to acquire token interactively."),
         effs0 ++ [.interactiveAcquire st.scope], st.fs⟩
      else finish st st.interactiveResult (effs0 ++ [.interactiveAcquire st.scope])
    else
      if st.deviceFlowError.isSome then
        ⟨.error (.valueError "Failed to create device flow."),
         effs0 ++ [.deviceFlowInit st.scope], st.fs⟩
      else if st.deviceResult.error.isSome then
        ⟨.error (.valueError "Failed to acquire token by device flow."),
         effs0 ++ [.deviceFlowInit st.scope, .printMsg st.deviceFlowMessage,
                   .deviceFlowAcquire st.scope], st.fs⟩
      else
        finish st st.deviceResult
          (effs0 ++ [.deviceFlowInit st.scope, .printMsg st.deviceFlowMessage,
                     .deviceFlowAcquire st.scope])

end NewAuth

/-! ## `sumo_client.py` -/

namespace SumoClient

/-- Model of an HTTP response from the target API: status code, text body,
raw byte content, and decoded JSON body. -/
structure Response where
  status : Nat
  text : String
  content : List Nat
  jsonBody : List (String × String)
  deriving Repr, DecidableEq

/-- httpx `response.is_error`: a 4xx or 5xx status code. -/
def Response.is_error (r : Response) : Bool := 400 ≤ r.status && r.status ≤ 599

/-- Outcome of issuing the HTTP request: a response, or an `httpx.ProxyError`
(raised by the transport before a response exists). -/
inductive HttpOutcome
  | response (r : Response)
  | proxyError
  deriving Repr, DecidableEq

/-- The `SumoClient` state relevant to `_retrieve_token` (`sumo_client.py`
`__init__`, lines 41-68): a decodable user-supplied token populates
`access_token`/`access_token_expires`; an undecodable one populates
`refresh_token` and `auth` is never created; with no token, `auth` is a
`NewAuth`. -/
structure ClientState where
  access_token : Option String
  access_token_expires : Int
  refresh_token : Option String
  auth : Option NewAuth.State

/-- What a method call produced: the result and the effect trace. -/
structure CallOut (α : Type) where
  result : Except PyErr α
  effects : List Effect

/-- Embeds `SumoClient._retrieve_token` (`sumo_client.py` lines 126-144): a truthy
user-supplied access token is checked for expiry locally and returned;
otherwise `self.auth.get_token()` runs (raising `AttributeError` when `auth`
was never created, i.e. when a refresh token was supplied at construction). -/
def retrieve_token (cs : ClientState) (now : Int) : CallOut String :=
  if truthyStr cs.access_token then
    if cs.access_token_expires ≤ now then
      ⟨.error (.valueError "Access_token has expired"), []⟩
    else ⟨.ok (cs.access_token.getD ""), []⟩
  else
    match cs.auth with
    | none => ⟨.error .attributeError, []⟩
    | some a =>
      match NewAuth.get_token a with
      | out => ⟨out.result, out.effects⟩

/-- What a 2xx GET returns: raw bytes for blob paths, decoded JSON otherwise. -/
inductive GetPayload
  | bytes (b : List Nat)
  | jsonContent (j : List (String × String))
  deriving Repr, DecidableEq

/-- Embeds `SumoClient.get` (`sumo_client.py` lines 163-211): retrieve a token,
issue the GET, classify an error status via
`raise_request_error_exception`, and return raw bytes when the path contains
`/blob`, decoded JSON otherwise. -/
def get (cs : ClientState) (now : Int) (path : String) (resp : Response) :
    CallOut GetPayload :=
  match retrieve_token cs now with
  | ⟨.error e, effs⟩ => ⟨.error e, effs⟩
  | ⟨.ok _tok, effs⟩ =>
    let effs := effs ++ [Effect.apiRequest "GET" path "application/json"]
    if resp.is_error then
      ⟨.error (.requestError (raise_request_error_exception resp.status) resp.status), effs⟩
    else if pyIn "/blob" path then ⟨.ok (.bytes resp.content), effs⟩
    else ⟨.ok (.jsonContent resp.jsonBody), effs⟩

/-- Embeds `SumoClient.get_async` (`sumo_client.py` lines 391-438): identical
control flow to `get`, over an `httpx.AsyncClient`. -/
def get_async (cs : ClientState) (now : Int) (path : String) (resp : Response) :
    CallOut GetPayload :=
  match retrieve_token cs now with
  | ⟨.error e, effs⟩ => ⟨.error e, effs⟩
  | ⟨.ok _tok, effs⟩ =>
    let effs := effs ++ [Effect.apiRequest "GET" path "application/json"]
    if resp.is_error then
      ⟨.error (.requestError (raise_request_error_exception resp.status) resp.status), effs⟩
    else if pyIn "/blob" path then ⟨.ok (.bytes resp.content), effs⟩
    else ⟨.ok (.jsonContent resp.jsonBody), effs⟩

/-- Embeds `SumoClient.post` (`sumo_client.py` lines 213-293): retrieve a token,
raise `ValueError` when both payloads are truthy, select the content type by
the truthiness of `blob`, issue the POST (a `ProxyError` is classified as a
synthetic 503), and classify an error status. -/
def post (cs : ClientState) (now : Int) (path : String)
    (blob : Option (List Nat)) (json : Option (List (String × String)))
    (outcome : HttpOutcome) : CallOut Response :=
  match retrieve_token cs now with
  | ⟨.error e, effs⟩ => ⟨.error e, effs⟩
  | ⟨.ok _tok, effs⟩ =>
    if truthyBytes blob && truthyDict json then
      ⟨.error (.valueError "Both blob and json given to post."), effs⟩
    else
      let content_type :=
        if truthyBytes blob then "application/octet-stream" else "application/json"
      let effs := effs ++ [Effect.apiRequest "POST" path content_type]
      match outcome with
      | .proxyError =>
        ⟨.error (.requestError (raise_request_error_exception 503) 503), effs⟩
      | .response resp =>
        if resp.is_error then
          ⟨.error (.requestError (raise_request_error_exception resp.status) resp.status), effs⟩
        else ⟨.ok resp, effs⟩

/-- Embeds `SumoClient.post_async` (`sumo_client.py` lines 440-521): identical
control flow to `post`. -/
def post_async (cs : ClientState) (now : Int) (path : String)
    (blob : Option (List Nat)) (json : Option (List (String × String)))
    (outcome : HttpOutcome) : CallOut Response :=
  match retrieve_token cs now with
  | ⟨.error e, effs⟩ => ⟨.error e, effs⟩
  | ⟨.ok _tok, effs⟩ =>
    if truthyBytes blob && truthyDict json then
      ⟨.error (.valueError "Both blob and json given to post."), effs⟩
    else
      let content_type :=
        if truthyBytes blob then "application/octet-stream" else "application/json"
      let effs := effs ++ [Effect.apiRequest "POST" path content_type]
      match outcome with
      | .proxyError =>
        ⟨.error (.requestError (raise_request_error_exception 503) 503), effs⟩
      | .response resp =>
        if resp.is_error then
          ⟨.error (.requestError (raise_request_error_exception resp.status) resp.status), effs⟩
        else ⟨.ok resp, effs⟩

/-- Embeds `SumoClient.put` (`sumo_client.py` lines 295-339): like `post`, but the
content type is `application/json` exactly when `json is not None`, and the
`ValueError` message has no trailing period. -/
def put (cs : ClientState) (now : Int) (path : String)
    (blob : Option (List Nat)) (json : Option (List (String × String)))
    (outcome : HttpOutcome) : CallOut Response :=
  match retrieve_token cs now with
  | ⟨.error e, effs⟩ => ⟨.error e, effs⟩
  | ⟨.ok _tok, effs⟩ =>
    if truthyBytes blob && truthyDict json then
      ⟨.error (.valueError "Both blob and json given to post"), effs⟩
    else
      let content_type :=
        if json.isSome then "application/json" else "application/octet-stream"
      let effs := effs ++ [Effect.apiRequest "PUT" path content_type]
      match outcome with
      | .proxyError =>
        ⟨.error (.requestError (raise_request_error_exception 503) 503), effs⟩
      | .response resp =>
        if resp.is_error then
          ⟨.error (.requestError (raise_request_error_exception resp.status) resp.status), effs⟩
        else ⟨.ok resp, effs⟩

/-- Embeds `SumoClient.put_async` (`sumo_client.py` lines 523-571): identical
control flow to `put`. -/
def put_async (cs : ClientState) (now : Int) (path : String)
    (blob : Option (List Nat)) (json : Option (List (String × String)))
    (outcome : HttpOutcome) : CallOut Response :=
  match retrieve_token cs now with
  | ⟨.error e, effs⟩ => ⟨.error e, effs⟩
  | ⟨.ok _tok, effs⟩ =>
    if truthyBytes blob && truthyDict json then
      ⟨.error (.valueError "Both blob and json given to post"), effs⟩
    else
      let content_type :=
        if json.isSome then "application/json" else "application/octet-stream"
      let effs := effs ++ [Effect.apiRequest "PUT" path content_type]
      match outcome with
      | .proxyError =>
        ⟨.error (.requestError (raise_request_error_exception 503) 503), effs⟩
      | .response resp =>
        if resp.is_error then
          ⟨.error (.requestError (raise_request_error_exception resp.status) resp.status), effs⟩
        else ⟨.ok resp, effs⟩

/-- Embeds `SumoClient.delete` (`sumo_client.py` lines 341-371): retrieve a token,
issue the DELETE, classify an error status, return the decoded JSON body. -/
def delete (cs : ClientState) (now : Int) (path : String) (resp : Response) :
    CallOut (List (String × String)) :=
  match retrieve_token cs now with
  | ⟨.error e, effs⟩ => ⟨.error e, effs⟩
  | ⟨.ok _tok, effs⟩ =>
    let effs := effs ++ [Effect.apiRequest "DELETE" path "application/json"]
    if resp.is_error then
      ⟨.error (.requestError (raise_request_error_exception resp.status) resp.status), effs⟩
    else ⟨.ok resp.jsonBody, effs⟩

/-- Embeds `SumoClient.delete_async` (`sumo_client.py` lines 573-607): identical
control flow to `delete`. -/
def delete_async (cs : ClientState) (now : Int) (path : String) (resp : Response) :
    CallOut (List (String × String)) :=
  match retrieve_token cs now with
  | ⟨.error e, effs⟩ => ⟨.error e, effs⟩
  | ⟨.ok _tok, effs⟩ =>
    let effs := effs ++ [Effect.apiRequest "DELETE" path "application/json"]
    if resp.is_error then
      ⟨.error (.requestError (raise_request_error_exception resp.status) resp.status), effs⟩
    else ⟨.ok resp.jsonBody, effs⟩

end SumoClient

/-! ## Claim theorems -/

/-- Claim C1: strategy selection at session construction is a fixed total
order: if all four managed-identity environment variables are set (truthy)
the Managed provider is returned; else if a refresh token is supplied the
RefreshToken provider; else if an access token is supplied the AccessToken
provider; else if the interactive flag is set the Interactive provider; else
the DeviceCode provider — for every combination of inputs exactly one
provider is constructed (the selector is a total function and the five
characterizations below are mutually exclusive and exhaustive). -/
theorem claim_C1_strategy_selection (env : EnvVars)
    (client_id authority resource_id : String) (interactive : Bool)
    (access_token refresh_token : Option String) :
    (get_auth_provider env client_id authority resource_id interactive
        access_token refresh_token = .managed ↔ managedEnvSet env = true)
  ∧ (get_auth_provider env client_id authority resource_id interactive
        access_token refresh_token = .refreshTok ↔
      managedEnvSet env = false ∧ truthyStr refresh_token = true)
  ∧ (get_auth_provider env client_id authority resource_id interactive
        access_token refresh_token = .accessTok ↔
      managedEnvSet env = false ∧ truthyStr refresh_token = false ∧
        truthyStr access_token = true)
  ∧ (get_auth_provider env client_id authority resource_id interactive
        access_token refresh_token = .interactive ↔
      managedEnvSet env = false ∧ truthyStr refresh_token = false ∧
        truthyStr access_token = false ∧ interactive = true)
  ∧ (get_auth_provider env client_id authority resource_id interactive
        access_token refresh_token = .deviceCode ↔
      managedEnvSet env = false ∧ truthyStr refresh_token = false ∧
        truthyStr access_token = false ∧ interactive = false) := by
  unfold get_auth_provider
  cases hm : managedEnvSet env <;>
    cases hr : truthyStr refresh_token <;>
      cases ha : truthyStr access_token <;>
        cases interactive <;> simp

/-- Claim C2: for every HTTP response with an error status code, the raised
error kind is determined solely by the status code: Transient exactly when
the code is 404, 500, 503 or 504; Authentication exactly when 401-403;
Permanent for every other error code — uniformly for get, post, put and
delete, sync and async (all eight methods classify through the same
function, and the older client's private copy agrees with it). -/
theorem claim_C2_error_taxonomy :
    (∀ code : Nat, 400 ≤ code →
      ((raise_request_error_exception code = .transient ↔
          (code = 404 ∨ code = 500 ∨ code = 503 ∨ code = 504))
       ∧ (raise_request_error_exception code = .authentication ↔
          (401 ≤ code ∧ code ≤ 403))
       ∧ (raise_request_error_exception code = .permanent ↔
          (¬(code = 404 ∨ code = 500 ∨ code = 503 ∨ code = 504) ∧
            ¬(401 ≤ code ∧ code ≤ 403)))))
  ∧ (∀ code : Nat, Old.raise_request_error_exception code = raise_request_error_exception code)
  ∧ (∀ (cs : SumoClient.ClientState) (now : Int) (path : String)
       (resp : SumoClient.Response) (tok : String) (effs : List Effect),
      SumoClient.retrieve_token cs now = ⟨.ok tok, effs⟩ →
      resp.is_error = true →
        (SumoClient.get cs now path resp).result
            = .error (.requestError (raise_request_error_exception resp.status) resp.status)
        ∧ (SumoClient.get_async cs now path resp).result
            = .error (.requestError (raise_request_error_exception resp.status) resp.status)
        ∧ (SumoClient.delete cs now path resp).result
            = .error (.requestError (raise_request_error_exception resp.status) resp.status)
        ∧ (SumoClient.delete_async cs now path resp).result
            = .error (.requestError (raise_request_error_exception resp.status) resp.status))
  ∧ (∀ (cs : SumoClient.ClientState) (now : Int) (path : String)
       (blob : Option (List Nat)) (json : Option (List (String × String)))
       (resp : SumoClient.Response) (tok : String) (effs : List Effect),
      SumoClient.retrieve_token cs now = ⟨.ok tok, effs⟩ →
      (truthyBytes blob && truthyDict json) = false →
      resp.is_error = true →
        (SumoClient.post cs now path blob json (.response resp)).result
            = .error (.requestError (raise_request_error_exception resp.status) resp.status)
        ∧ (SumoClient.post_async cs now path blob json (.response resp)).result
            = .error (.requestError (raise_request_error_exception resp.status) resp.status)
        ∧ (SumoClient.put cs now path blob json (.response resp)).result
            = .error (.requestError (raise_request_error_exception resp.status) resp.status)
        ∧ (SumoClient.put_async cs now path blob json (.response resp)).result
            = .error (.requestError (raise_request_error_exception resp.status) resp.status)) := by
  refine ⟨?_, ?_, ?_, ?_⟩
  · intro code _hc
    unfold raise_request_error_exception
    split_ifs with h1 h2 <;> refine ⟨?_, ?_, ?_⟩ <;> simp <;> omega
  · intro code
    rfl
  · intro cs now path resp tok effs hretr herr
    refine ⟨?_, ?_, ?_, ?_⟩ <;>
      simp [SumoClient.get, SumoClient.get_async, SumoClient.delete,
        SumoClient.delete_async, hretr, herr]
  · intro cs now path blob json resp tok effs hretr hboth herr
    refine ⟨?_, ?_, ?_, ?_⟩ <;>
      simp [SumoClient.post, SumoClient.post_async, SumoClient.put,
        SumoClient.put_async, hretr, hboth, herr]

/-- No branch of the permission hardening issues a target-API request. -/
lemma harden_noApi (fs : FsState) : noApiRequest (NewAuth.harden fs).2 = true := by
  unfold NewAuth.harden
  split_ifs <;> rfl

/-- Helper: `NewAuth.finish` only adds chmod effects, so it preserves the absence of
target-API requests. -/
lemma finish_noApi (st : NewAuth.State) (r : MsalResult) (effs : List Effect)
    (h : noApiRequest effs = true) :
    noApiRequest (NewAuth.finish st r effs).effects = true := by
  unfold NewAuth.finish
  rcases hh : NewAuth.harden st.fs with ⟨fs2, effs2⟩
  have h2 : noApiRequest effs2 = true := by
    have h3 := harden_noApi st.fs
    rw [hh] at h3
    exact h3
  unfold noApiRequest at h h2 ⊢
  cases hr : r.accessToken <;> simp [List.all_append, h, h2]

/-- No branch of `NewAuth.get_token` issues a target-API request: its effects
are identity-provider calls, printing and chmod only. -/
lemma newAuth_getToken_noApi (st : NewAuth.State) :
    noApiRequest (NewAuth.get_token st).effects = true := by
  obtain ⟨scope, rt, inter, accounts, silentR, refreshR, interR, dferr, dfmsg, devR, fs⟩ := st
  cases accounts <;> cases silentR <;>
    simp only [NewAuth.get_token] <;>
    first
      | exact finish_noApi _ _ _ rfl
      | (split_ifs <;> first | rfl | exact finish_noApi _ _ _ rfl)

/-- Token retrieval in the new client never issues a target-API request. -/
lemma retrieve_token_noApi (cs : SumoClient.ClientState) (now : Int) :
    noApiRequest (SumoClient.retrieve_token cs now).effects = true := by
  unfold SumoClient.retrieve_token
  split_ifs
  · rfl
  · rfl
  · cases hauth : cs.auth
    · rfl
    · simpa using newAuth_getToken_noApi _

/-- Concrete client holding a valid user-supplied access token (expiry 1000,
used at time 0). -/
def csTok : SumoClient.ClientState := ⟨some "tok", 1000, none, none⟩

/-- Concrete 418 response. -/
def resp418 : SumoClient.Response := ⟨418, "teapot", [], []⟩

/-- Witness for C2 at concrete inputs: 503 is Transient, 401 is
Authentication, 418 is Permanent, and a concrete `get` on a 418 response
raises the Permanent classification. -/
theorem claim_C2_error_taxonomy_witness :
    raise_request_error_exception 503 = .transient
    ∧ raise_request_error_exception 401 = .authentication
    ∧ raise_request_error_exception 418 = .permanent
    ∧ (SumoClient.get csTok 0 "/objects" resp418).result
        = .error (.requestError .permanent 418) := by
  obtain ⟨h1, _h2, h3, _h4⟩ := claim_C2_error_taxonomy
  refine ⟨(h1 503 (by norm_num)).1.mpr (by norm_num),
          (h1 401 (by norm_num)).2.1.mpr (by norm_num),
          (h1 418 (by norm_num)).2.2.mpr (by norm_num), ?_⟩
  exact (h3 csTok 0 "/objects" resp418 "tok" [] (by rfl) (by rfl)).1

/-- A `NewAuth` session holding a caller-supplied refresh token, no cached
accounts, and a succeeding refresh exchange; cache permissions compliant. -/
def c3Auth : NewAuth.State :=
  ⟨"rid/.default", some "rt", false, [], none, ⟨none, some "newtok"⟩, ⟨none, none⟩,
   none, "", ⟨none, none⟩, ⟨0o600, 0o700⟩⟩

/-- A new client with no user-supplied access token, so `_retrieve_token`
delegates to `NewAuth.get_token`. -/
def c3Client : SumoClient.ClientState := ⟨none, 0, none, some c3Auth⟩

/-- Counterexample to claim C3 as stated: on a client whose token retrieval
goes through the refresh-token exchange, `post` with both payloads supplied
raises the ValueError only after the identity-provider exchange has already
run — an observable network call precedes the error, because the both-payload
validation sits after `self._retrieve_token()` in the source. -/
theorem claim_C3_counterexample :
    SumoClient.post c3Client 0 "/objects" (some [1]) (some [("k", "v")]) .proxyError
      = ⟨.error (.valueError "Both blob and json given to post."),
         [Effect.refreshExchange "rid/.default"]⟩
    ∧ Effect.isNetwork (.refreshExchange "rid/.default") = true :=
  ⟨rfl, rfl⟩

/-- Claim C3 (amended): for every `post`/`put` call (sync or async) supplying
both truthy payloads, the call fails and no HTTP request to the target API is
ever issued; when token retrieval succeeds the error is precisely the
both-payloads ValueError.  (As stated the claim is false: the validation runs
after `self._retrieve_token()`, which may itself perform identity-provider
network calls and cache-permission side effects — see the counterexample.) -/
theorem claim_C3_both_payloads (cs : SumoClient.ClientState) (now : Int)
    (path : String) (blob : Option (List Nat)) (json : Option (List (String × String)))
    (outcome : SumoClient.HttpOutcome)
    (hb : truthyBytes blob = true) (hj : truthyDict json = true) :
    (noApiRequest (SumoClient.post cs now path blob json outcome).effects = true
     ∧ isErr (SumoClient.post cs now path blob json outcome).result = true
     ∧ (∀ tok effsT, SumoClient.retrieve_token cs now = ⟨.ok tok, effsT⟩ →
         (SumoClient.post cs now path blob json outcome).result
           = .error (.valueError "Both blob and json given to post.")))
  ∧ (noApiRequest (SumoClient.post_async cs now path blob json outcome).effects = true
     ∧ isErr (SumoClient.post_async cs now path blob json outcome).result = true
     ∧ (∀ tok effsT, SumoClient.retrieve_token cs now = ⟨.ok tok, effsT⟩ →
         (SumoClient.post_async cs now path blob json outcome).result
           = .error (.valueError "Both blob and json given to post.")))
  ∧ (noApiRequest (SumoClient.put cs now path blob json outcome).effects = true
     ∧ isErr (SumoClient.put cs now path blob json outcome).result = true
     ∧ (∀ tok effsT, SumoClient.retrieve_token cs now = ⟨.ok tok, effsT⟩ →
         (SumoClient.put cs now path blob json outcome).result
           = .error (.valueError "Both blob and json given to post")))
  ∧ (noApiRequest (SumoClient.put_async cs now path blob json outcome).effects = true
     ∧ isErr (SumoClient.put_async cs now path blob json outcome).result = true
     ∧ (∀ tok effsT, SumoClient.retrieve_token cs now = ⟨.ok tok, effsT⟩ →
         (SumoClient.put_async cs now path blob json outcome).result
           = .error (.valueError "Both blob and json given to post"))) := by
  rcases hr : SumoClient.retrieve_token cs now with ⟨r, effsT⟩
  have h2 : noApiRequest effsT = true := by
    have h3 := retrieve_token_noApi cs now
    rw [hr] at h3
    exact h3
  cases r with
  | error e =>
    refine ⟨⟨?_, ?_, ?_⟩, ⟨?_, ?_, ?_⟩, ⟨?_, ?_, ?_⟩, ⟨?_, ?_, ?_⟩⟩ <;>
      first
        | simp [SumoClient.post, SumoClient.post_async, SumoClient.put,
            SumoClient.put_async, hr, h2, isErr]
        | (intro tok effsT2 hcontra; rw [hr] at hcontra; simp at hcontra)
  | ok tok =>
    refine ⟨⟨?_, ?_, ?_⟩, ⟨?_, ?_, ?_⟩, ⟨?_, ?_, ?_⟩, ⟨?_, ?_, ?_⟩⟩ <;>
      first
        | simp [SumoClient.post, SumoClient.post_async, SumoClient.put,
            SumoClient.put_async, hr, hb, hj, h2, isErr]
        | (intro tok2 effsT2 _h;
           simp [SumoClient.post, SumoClient.post_async, SumoClient.put,
             SumoClient.put_async, hr, hb, hj])

/-- Witness for the amended C3 at a concrete call: both payloads truthy on a
client with a valid user token — no target-API request in the trace and the
both-payloads ValueError is raised. -/
theorem claim_C3_both_payloads_witness :
    noApiRequest (SumoClient.post csTok 0 "/objects" (some [1])
        (some [("k", "v")]) .proxyError).effects = true
    ∧ (SumoClient.post csTok 0 "/objects" (some [1])
        (some [("k", "v")]) .proxyError).result
      = .error (.valueError "Both blob and json given to post.") := by
  have h := claim_C3_both_payloads csTok 0 "/objects" (some [1]) (some [("k", "v")])
    .proxyError (by decide) (by decide)
  exact ⟨h.1.1, h.1.2.2 "tok" [] (by rfl)⟩

/-- Claim C4: the AccessToken strategy decodes the supplied token's expiry
claim without signature verification (the stored expiry is the decoded `exp`
and does not depend on the signature); when current time ≥ the decoded
expiry, `get_token` fails with the token-expiry error and performs no effect
(in particular no network call); otherwise it returns the supplied token
unchanged, also with no effect. -/
theorem claim_C4_access_token_expiry (t : Jwt) (now : Int) :
    ((AuthProviderAccessToken.init t).expires = jwtDecodeExp t)
  ∧ ((AuthProviderAccessToken.init t).access_token = t)
  ∧ (∀ (h p : String) (exp0 : Int), True →
      ∀ s1 s2 : String, (AuthProviderAccessToken.init ⟨h, exp0, s1⟩).expires
        = (AuthProviderAccessToken.init ⟨h, exp0, s2⟩).expires)
  ∧ (now ≥ jwtDecodeExp t →
      AuthProviderAccessToken.get_token (AuthProviderAccessToken.init t) now
        = (.error (.valueError "Access token has expired."), []))
  ∧ (now < jwtDecodeExp t →
      AuthProviderAccessToken.get_token (AuthProviderAccessToken.init t) now
        = (.ok t, [])) := by
  refine ⟨rfl, rfl, fun _ _ _ _ _ _ => rfl, ?_, ?_⟩
  · intro h
    simp only [AuthProviderAccessToken.get_token, AuthProviderAccessToken.init]
    rw [if_pos h]
  · intro h
    simp only [AuthProviderAccessToken.get_token, AuthProviderAccessToken.init]
    rw [if_neg (by exact not_le.mpr h)]

/-- Witness for C4 at a concrete token with expiry 100: the call at time 200
fails with no effects; the call at time 0 returns the token unchanged. -/
theorem claim_C4_access_token_expiry_witness :
    AuthProviderAccessToken.get_token (AuthProviderAccessToken.init ⟨"hdr", 100, "sig"⟩) 200
      = (.error (.valueError "Access token has expired."), [])
    ∧ AuthProviderAccessToken.get_token (AuthProviderAccessToken.init ⟨"hdr", 100, "sig"⟩) 0
      = (.ok ⟨"hdr", 100, "sig"⟩, []) :=
  ⟨(claim_C4_access_token_expiry ⟨"hdr", 100, "sig"⟩ 200).2.2.2.1 (by decide),
   (claim_C4_access_token_expiry ⟨"hdr", 100, "sig"⟩ 0).2.2.2.2 (by decide)⟩

/-- Counterexample to claim C5 as stated: after the device-code save path
(`AuthProviderDeviceCode.login`, which hardens via `protect_token_cache`),
starting from a file already at mode 0600 but a directory at 0755, the
directory is left at 0755 — the hardening skips everything when the file
mode is already correct, so the claimed invariant fails exactly in the case
the claim singles out. -/
theorem claim_C5_counterexample :
    (AuthProviderDeviceCode.login "rid/.default offline_access" none "msg"
        ⟨none, some "tok"⟩ ⟨0o600, 0o755⟩).2.2 = ⟨0o600, 0o755⟩
    ∧ (0o755 : Nat) ≠ 0o700 :=
  ⟨rfl, by decide⟩

/-- Claim C5 (amended): the `_write_cache` save path of `_auth.py` always
leaves the file at 0600 and the directory at 0700, and so does the hardening
block of `NewAuth.get_token`; `protect_token_cache` (the device-code path of
`_auth_provider.py`) establishes the invariant only when the file's prior
mode differs from 0600 — when the file is already 0600 it changes nothing, so
the directory may remain at a mode other than 0700. -/
theorem claim_C5_permission_hardening (fs : FsState) (scope : String) :
    (Auth.write_cache fs).1 = ⟨0o600, 0o700⟩
  ∧ ((NewAuth.harden fs).1.fileMode = 0o600 ∧ (NewAuth.harden fs).1.dirMode = 0o700)
  ∧ (fs.fileMode ≠ 0o600 → (protect_token_cache fs).1 = ⟨0o600, 0o700⟩)
  ∧ (fs.fileMode = 0o600 → (protect_token_cache fs).1 = fs)
  ∧ (∀ (flowMessage : String) (r : MsalResult), r.error = none →
      (AuthProviderDeviceCode.login scope none flowMessage r fs).2.2
        = (protect_token_cache fs).1) := by
  refine ⟨rfl, ?_, ?_, ?_, ?_⟩
  · unfold NewAuth.harden
    split_ifs <;> simp_all
  · intro h
    unfold protect_token_cache
    split_ifs with h1 h2 <;> simp_all
  · intro h
    unfold protect_token_cache
    split_ifs <;> simp_all
  · intro flowMessage r hr
    unfold AuthProviderDeviceCode.login
    rcases hp : protect_token_cache fs with ⟨fs2, effs⟩
    simp [hr, hp]

/-- Witness for the amended C5 at concrete modes: a non-0600 file is fully
repaired; an already-0600 file with a 0755 directory is left untouched. -/
theorem claim_C5_permission_hardening_witness :
    (protect_token_cache ⟨0o644, 0o755⟩).1 = ⟨0o600, 0o700⟩
    ∧ (protect_token_cache ⟨0o600, 0o755⟩).1 = ⟨0o600, 0o755⟩
    ∧ (AuthProviderDeviceCode.login "s" none "m" ⟨none, some "t"⟩ ⟨0o600, 0o755⟩).2.2
        = (protect_token_cache ⟨0o600, 0o755⟩).1 :=
  ⟨(claim_C5_permission_hardening ⟨0o644, 0o755⟩ "s").2.2.1 (by decide),
   (claim_C5_permission_hardening ⟨0o600, 0o755⟩ "s").2.2.2.1 (by decide),
   (claim_C5_permission_hardening ⟨0o600, 0o755⟩ "s").2.2.2.2 "m" ⟨none, some "t"⟩ rfl⟩

/-- Claim C6: two `get_token()` calls on the same session within the
safety-threshold window (`expires_in` minus 60 seconds after acquisition at
`t0`) return the identical access token string, and neither call (in
particular not the second) triggers an acquisition from the credential
provider (empty effect trace, state unchanged); likewise for the old
client's `_retrieve_token` wrapper. -/
theorem claim_C6_token_reuse (st : Auth.St) (scope tok : String)
    (t0 e t1 t2 : Int) (o1 o2 : Auth.SilentOutcome)
    (hwin : st.expiring_date = Auth.set_expiring_date t0 e)
    (htok : st.result.accessToken = some tok)
    (h1 : t1 ≤ t0 + (e - 60)) (h2 : t2 ≤ t0 + (e - 60)) :
    Auth.get_token st t1 o1 scope = (.ok tok, st, [])
  ∧ Auth.get_token (Auth.get_token st t1 o1 scope).2.1 t2 o2 scope = (.ok tok, st, [])
  ∧ (∀ cs : Old.ClientSt, cs.user_provided_access_token = none → cs.auth = st →
      cs.access_token = tok →
        Old.retrieve_token cs t1 o1 scope = (.ok tok, cs, [])
        ∧ Old.retrieve_token (Old.retrieve_token cs t1 o1 scope).2.1 t2 o2 scope
            = (.ok tok, cs, [])) := by
  have hexp1 : Auth.is_token_expired st t1 = false := by
    unfold Auth.is_token_expired
    rw [hwin]
    unfold Auth.set_expiring_date
    simp
    omega
  have hexp2 : Auth.is_token_expired st t2 = false := by
    unfold Auth.is_token_expired
    rw [hwin]
    unfold Auth.set_expiring_date
    simp
    omega
  have hcall1 : Auth.get_token st t1 o1 scope = (.ok tok, st, []) := by
    unfold Auth.get_token
    simp [hexp1, htok]
  have hcall2 : Auth.get_token st t2 o2 scope = (.ok tok, st, []) := by
    unfold Auth.get_token
    simp [hexp2, htok]
  refine ⟨hcall1, ?_, ?_⟩
  · rw [hcall1]
    exact hcall2
  · intro cs hu ha htk
    have hold1 : Old.retrieve_token cs t1 o1 scope = (.ok tok, cs, []) := by
      unfold Old.retrieve_token
      rw [hu, ha]
      simp [truthyStr, hexp1, htk]
    have hold2 : Old.retrieve_token cs t2 o2 scope = (.ok tok, cs, []) := by
      unfold Old.retrieve_token
      rw [hu, ha]
      simp [truthyStr, hexp2, htk]
    refine ⟨hold1, ?_⟩
    rw [hold1]
    exact hold2

/-- Witness for C6: a session acquired at time 0 with `expires_in` 3600,
queried at times 10 and 3000 (both within the 3540-second window). -/
theorem claim_C6_token_reuse_witness :
    Auth.get_token ⟨⟨none, some "tok"⟩, Auth.set_expiring_date 0 3600⟩ 10
        ⟨⟨none, none⟩, 0⟩ "scope"
      = (.ok "tok", ⟨⟨none, some "tok"⟩, Auth.set_expiring_date 0 3600⟩, [])
    ∧ Auth.get_token
        (Auth.get_token ⟨⟨none, some "tok"⟩, Auth.set_expiring_date 0 3600⟩ 10
          ⟨⟨none, none⟩, 0⟩ "scope").2.1 3000 ⟨⟨none, none⟩, 0⟩ "scope"
      = (.ok "tok", ⟨⟨none, some "tok"⟩, Auth.set_expiring_date 0 3600⟩, []) := by
  have h := claim_C6_token_reuse ⟨⟨none, some "tok"⟩, Auth.set_expiring_date 0 3600⟩
    "scope" "tok" 0 3600 10 3000 ⟨⟨none, none⟩, 0⟩ ⟨⟨none, none⟩, 0⟩
    rfl rfl (by decide) (by decide)
  exact ⟨h.1, h.2.1⟩

/-- Counterexample to claim C7 as stated: constructing the RefreshToken
provider with an exchange result that carries an `error` key succeeds anyway
— the constructor discards `acquire_token_by_refresh_token`'s result, so an
erroring initial exchange does not fail with a TokenError. -/
theorem claim_C7_counterexample :
    AuthProviderRefreshToken.init "rt" "cid" "authority" "rid" ⟨[], none⟩
        ⟨some "invalid_grant", none⟩
      = .ok (⟨scope_for_resource "rid", ⟨[], none⟩⟩,
             [.refreshExchange (scope_for_resource "rid")])
    ∧ (MsalResult.mk (some "invalid_grant") none).error.isSome = true :=
  ⟨rfl, rfl⟩

/-- Claim C7 (amended): the RefreshToken strategy performs exactly one
refresh-token exchange at construction time, for every exchange result
(including an erroring one — the result is discarded, so construction never
fails; a failed exchange surfaces only on a later `get_token`); every
subsequent `get_token` call uses the provider's silent-acquisition path and
never re-runs the explicit exchange. -/
theorem claim_C7_refresh_exchange (refresh_token client_id authority resource_id : String)
    (app : MsalApp) (xr : MsalResult) :
    AuthProviderRefreshToken.init refresh_token client_id authority resource_id app xr
      = .ok (⟨scope_for_resource resource_id, app⟩,
             [.refreshExchange (scope_for_resource resource_id)])
  ∧ (∀ p : AuthProviderRefreshToken,
      (AuthProviderRefreshToken.get_token p).2.all (fun e => !e.isRefreshExchange) = true)
  ∧ (∀ p : AuthProviderRefreshToken, p.app.accounts ≠ [] →
      (AuthProviderRefreshToken.get_token p).2 = [.silentAcquire p.scope]) := by
  refine ⟨rfl, ?_, ?_⟩
  · intro p
    unfold AuthProviderRefreshToken.get_token AuthProvider.get_token
    cases p.app.accounts with
    | nil => rfl
    | cons a l =>
      cases p.app.silentResult with
      | none => rfl
      | some r =>
        by_cases he : r.error.isSome = true
        · simp [he, Effect.isRefreshExchange]
        · cases hra : r.accessToken <;> simp [he, hra, Effect.isRefreshExchange]
  · intro p hne
    unfold AuthProviderRefreshToken.get_token AuthProvider.get_token
    cases hacc : p.app.accounts with
    | nil => exact absurd hacc hne
    | cons a l =>
      cases p.app.silentResult with
      | none => rfl
      | some r =>
        by_cases he : r.error.isSome = true
        · simp [he]
        · cases hra : r.accessToken <;> simp [he, hra]

/-- Witness for the amended C7: a concrete construction with an erroring
exchange result still yields a provider with exactly one exchange effect,
and its `get_token` on a cached account emits only the silent acquisition. -/
theorem claim_C7_refresh_exchange_witness :
    AuthProviderRefreshToken.init "rt" "cid" "authority" "rid"
        ⟨["acct"], some ⟨none, some "tok"⟩⟩ ⟨some "oops", none⟩
      = .ok (⟨scope_for_resource "rid", ⟨["acct"], some ⟨none, some "tok"⟩⟩⟩,
             [.refreshExchange (scope_for_resource "rid")])
    ∧ (AuthProviderRefreshToken.get_token
        ⟨scope_for_resource "rid", ⟨["acct"], some ⟨none, some "tok"⟩⟩⟩).2
      = [.silentAcquire (scope_for_resource "rid")] := by
  have h := claim_C7_refresh_exchange "rt" "cid" "authority" "rid"
    ⟨["acct"], some ⟨none, some "tok"⟩⟩ ⟨some "oops", none⟩
  exact ⟨h.1, h.2.2 ⟨scope_for_resource "rid", ⟨["acct"], some ⟨none, some "tok"⟩⟩⟩
    (by decide)⟩

/-- Every identity-provider effect in a trace carries the given scope. -/
def scopesOk (scope : String) (l : List Effect) : Bool :=
  l.all (fun e =>
    match e.scopeOf with
    | none => true
    | some s => s == scope)

/-- The permission hardening emits only scope-less (chmod) effects. -/
lemma harden_scopes (scope : String) (fs : FsState) :
    scopesOk scope (NewAuth.harden fs).2 = true := by
  unfold NewAuth.harden
  split_ifs <;> rfl

/-- Helper: `NewAuth.finish` preserves scope uniformity of the trace. -/
lemma finish_scopes (st : NewAuth.State) (r : MsalResult) (effs : List Effect)
    (h : scopesOk st.scope effs = true) :
    scopesOk st.scope (NewAuth.finish st r effs).effects = true := by
  unfold NewAuth.finish
  rcases hh : NewAuth.harden st.fs with ⟨fs2, effs2⟩
  have h2 : scopesOk st.scope effs2 = true := by
    have h3 := harden_scopes st.scope st.fs
    rw [hh] at h3
    exact h3
  unfold scopesOk at h h2 ⊢
  cases hr : r.accessToken <;> simp [List.all_append, h, h2]

/-- Every identity-provider effect of `NewAuth.get_token` carries the
session's single scope string. -/
lemma newAuth_getToken_scopes (st : NewAuth.State) :
    scopesOk st.scope (NewAuth.get_token st).effects = true := by
  obtain ⟨scope, rt, inter, accounts, silentR, refreshR, interR, dferr, dfmsg, devR, fs⟩ := st
  cases accounts <;> cases silentR <;>
    simp only [NewAuth.get_token] <;>
    first
      | exact finish_scopes _ _ _ (by simp [scopesOk, Effect.scopeOf])
      | (split_ifs <;>
          first
            | exact finish_scopes _ _ _ (by simp [scopesOk, Effect.scopeOf])
            | simp [scopesOk, Effect.scopeOf])

/-- Every identity-provider effect of the RefreshToken provider's `get_token`
carries the provider's single scope string. -/
lemma refresh_getToken_scopes (p : AuthProviderRefreshToken) :
    scopesOk p.scope (AuthProviderRefreshToken.get_token p).2 = true := by
  unfold AuthProviderRefreshToken.get_token AuthProvider.get_token
  cases p.app.accounts with
  | nil => rfl
  | cons a l =>
    cases p.app.silentResult with
    | none => simp [scopesOk, Effect.scopeOf]
    | some r =>
      by_cases he : r.error.isSome = true
      · simp [he, scopesOk, Effect.scopeOf]
      · cases hra : r.accessToken <;> simp [he, hra, scopesOk, Effect.scopeOf]

/-- Helper: `scopesOk` distributes over list append. -/
lemma scopesOk_append (s : String) (l1 l2 : List Effect) :
    scopesOk s (l1 ++ l2) = (scopesOk s l1 && scopesOk s l2) := by
  simp [scopesOk, List.all_append]

/-- Every identity-provider effect of the device-code login carries the
provider's single scope string. -/
lemma deviceLogin_scopes (scope : String) (flowError : Option String)
    (flowMessage : String) (r : MsalResult) (fs : FsState) :
    scopesOk scope
      (AuthProviderDeviceCode.login scope flowError flowMessage r fs).2.1 = true := by
  have hp : scopesOk scope (protect_token_cache fs).2 = true := by
    unfold protect_token_cache
    split_ifs <;> rfl
  unfold AuthProviderDeviceCode.login
  split_ifs with h1 h2
  · simp [scopesOk, Effect.scopeOf]
  · simp [scopesOk, Effect.scopeOf]
  · rcases hp2 : protect_token_cache fs with ⟨fs2, effs⟩
    rw [hp2] at hp
    show scopesOk scope
      ([Effect.deviceFlowInit scope, Effect.printMsg flowMessage,
        Effect.deviceFlowAcquire scope] ++ effs) = true
    rw [scopesOk_append]
    simp only [Bool.and_eq_true]
    exact ⟨by simp [scopesOk, Effect.scopeOf], hp⟩

/-- Claim C8: the OAuth scope string is `"{resource_id}/.default"` with
`offline_access` as an optional addition (`_auth_provider.py` appends it;
`_auth.py` and `_new_auth.py` do not), and within a session the same string
is used by every acquisition path: every identity-provider effect of
`NewAuth.get_token`, of the RefreshToken provider's `get_token`, and of the
device-code login carries the session's single scope string. -/
theorem claim_C8_scope_string (resource_id : String) :
    scope_for_resource resource_id = resource_id ++ "/.default offline_access"
  ∧ "/.default offline_access" = "/.default" ++ " offline_access"
  ∧ Auth.scopeOfResource resource_id = resource_id ++ "/.default"
  ∧ NewAuth.mkScope resource_id = resource_id ++ "/.default"
  ∧ (∀ st : NewAuth.State, st.scope = NewAuth.mkScope resource_id →
      scopesOk (NewAuth.mkScope resource_id) (NewAuth.get_token st).effects = true)
  ∧ (∀ p : AuthProviderRefreshToken, p.scope = scope_for_resource resource_id →
      scopesOk (scope_for_resource resource_id)
        (AuthProviderRefreshToken.get_token p).2 = true)
  ∧ (∀ (flowError : Option String) (flowMessage : String) (r : MsalResult) (fs : FsState),
      scopesOk (scope_for_resource resource_id)
        (AuthProviderDeviceCode.login (scope_for_resource resource_id) flowError
          flowMessage r fs).2.1 = true) := by
  refine ⟨rfl, rfl, rfl, rfl, ?_, ?_, ?_⟩
  · intro st h
    rw [← h]
    exact newAuth_getToken_scopes st
  · intro p h
    rw [← h]
    exact refresh_getToken_scopes p
  · intro flowError flowMessage r fs
    exact deviceLogin_scopes _ flowError flowMessage r fs

/-- Witness for C8: the concrete refresh-token session `c3Auth` (whose scope
is `"rid/.default"`) produces a trace whose identity-provider effects all
carry that scope. -/
theorem claim_C8_scope_string_witness :
    scopesOk (NewAuth.mkScope "rid") (NewAuth.get_token c3Auth).effects = true :=
  (claim_C8_scope_string "rid").2.2.2.2.1 c3Auth rfl

/-- Concrete 200 response with byte content and JSON body. -/
def resp200 : SumoClient.Response := ⟨200, "", [7, 8], [("k", "v")]⟩

/-- Claim C9: for every GET call (sync or async) whose path contains the
substring `/blob`, a 2xx response yields the raw response bytes; for every
other path, a 2xx response yields the decoded JSON content. -/
theorem claim_C9_blob_paths (cs : SumoClient.ClientState) (now : Int) (path : String)
    (resp : SumoClient.Response) (tok : String) (effsT : List Effect)
    (hretr : SumoClient.retrieve_token cs now = ⟨.ok tok, effsT⟩)
    (h200 : 200 ≤ resp.status) (h299 : resp.status ≤ 299) :
    (pyIn "/blob" path = true →
      (SumoClient.get cs now path resp).result = .ok (.bytes resp.content)
      ∧ (SumoClient.get_async cs now path resp).result = .ok (.bytes resp.content))
  ∧ (pyIn "/blob" path = false →
      (SumoClient.get cs now path resp).result = .ok (.jsonContent resp.jsonBody)
      ∧ (SumoClient.get_async cs now path resp).result = .ok (.jsonContent resp.jsonBody)) := by
  have herr : resp.is_error = false := by
    simp [SumoClient.Response.is_error]
    omega
  refine ⟨?_, ?_⟩ <;> intro hb <;>
    exact ⟨by simp [SumoClient.get, hretr, herr, hb],
           by simp [SumoClient.get_async, hretr, herr, hb]⟩

/-- Witness for C9 at concrete calls: a blob path returns the raw bytes, a
non-blob path the decoded JSON. -/
theorem claim_C9_blob_paths_witness :
    (SumoClient.get csTok 0 "/objects/xx/blob" resp200).result = .ok (.bytes [7, 8])
    ∧ (SumoClient.get csTok 0 "/userdata" resp200).result
        = .ok (.jsonContent [("k", "v")]) := by
  have h1 := claim_C9_blob_paths csTok 0 "/objects/xx/blob" resp200 "tok" []
    (by rfl) (by decide) (by decide)
  have h2 := claim_C9_blob_paths csTok 0 "/userdata" resp200 "tok" []
    (by rfl) (by decide) (by decide)
  exact ⟨(h1.1 (by decide)).1, (h2.2 (by decide)).1⟩

/-- Claim C10: the both-payloads check in `post`/`put` (sync and async) tests
truthiness, not presence: with an empty byte string as blob (or an empty dict
as json) and the other payload non-empty, no ValueError is raised and the
request is issued; `post` selects Content-Type `application/json` whenever
`blob` is falsy, `put` whenever `json is not None` — so on a truthy blob with
an empty-dict json, `post` sends `application/octet-stream` while `put` sends
`application/json`. -/
theorem claim_C10_truthiness (cs : SumoClient.ClientState) (now : Int) (path : String)
    (tok : String) (effsT : List Effect) (resp : SumoClient.Response)
    (hretr : SumoClient.retrieve_token cs now = ⟨.ok tok, effsT⟩)
    (hok : resp.is_error = false) :
    (∀ json, truthyDict json = true →
      SumoClient.post cs now path (some []) json (.response resp)
        = ⟨.ok resp, effsT ++ [Effect.apiRequest "POST" path "application/json"]⟩
      ∧ SumoClient.post_async cs now path (some []) json (.response resp)
        = ⟨.ok resp, effsT ++ [Effect.apiRequest "POST" path "application/json"]⟩
      ∧ SumoClient.put cs now path (some []) json (.response resp)
        = ⟨.ok resp, effsT ++ [Effect.apiRequest "PUT" path "application/json"]⟩
      ∧ SumoClient.put_async cs now path (some []) json (.response resp)
        = ⟨.ok resp, effsT ++ [Effect.apiRequest "PUT" path "application/json"]⟩)
  ∧ (∀ blob, truthyBytes blob = true →
      SumoClient.post cs now path blob (some []) (.response resp)
        = ⟨.ok resp, effsT ++ [Effect.apiRequest "POST" path "application/octet-stream"]⟩
      ∧ SumoClient.post_async cs now path blob (some []) (.response resp)
        = ⟨.ok resp, effsT ++ [Effect.apiRequest "POST" path "application/octet-stream"]⟩
      ∧ SumoClient.put cs now path blob (some []) (.response resp)
        = ⟨.ok resp, effsT ++ [Effect.apiRequest "PUT" path "application/json"]⟩
      ∧ SumoClient.put_async cs now path blob (some []) (.response resp)
        = ⟨.ok resp, effsT ++ [Effect.apiRequest "PUT" path "application/json"]⟩)
  ∧ (∀ blob json, truthyBytes blob = false →
      (SumoClient.post cs now path blob json (.response resp)).effects
        = effsT ++ [Effect.apiRequest "POST" path "application/json"]
      ∧ (SumoClient.post_async cs now path blob json (.response resp)).effects
        = effsT ++ [Effect.apiRequest "POST" path "application/json"])
  ∧ (∀ blob json, json.isSome = true → (truthyBytes blob && truthyDict json) = false →
      (SumoClient.put cs now path blob json (.response resp)).effects
        = effsT ++ [Effect.apiRequest "PUT" path "application/json"]
      ∧ (SumoClient.put_async cs now path blob json (.response resp)).effects
        = effsT ++ [Effect.apiRequest "PUT" path "application/json"]) := by
  refine ⟨?_, ?_, ?_, ?_⟩
  · intro json hj
    have hjs : json.isSome = true := by
      cases json <;> simp_all [truthyDict]
    refine ⟨?_, ?_, ?_, ?_⟩ <;>
      simp [SumoClient.post, SumoClient.post_async, SumoClient.put,
        SumoClient.put_async, hretr, hok, hj, hjs, truthyBytes]
  · intro blob hb
    refine ⟨?_, ?_, ?_, ?_⟩ <;>
      simp [SumoClient.post, SumoClient.post_async, SumoClient.put,
        SumoClient.put_async, hretr, hok, hb, truthyDict]
  · intro blob json hb
    refine ⟨?_, ?_⟩ <;>
      simp [SumoClient.post, SumoClient.post_async, hretr, hok, hb]
  · intro blob json hjs hnb
    refine ⟨?_, ?_⟩ <;>
      simp [SumoClient.put, SumoClient.put_async, hretr, hok, hjs, hnb]

/-- Witness for C10 at concrete calls: empty blob with truthy json proceeds
as JSON; truthy blob with empty dict proceeds, as octet-stream in `post` but
as JSON in `put`. -/
theorem claim_C10_truthiness_witness :
    SumoClient.post csTok 0 "/objects" (some []) (some [("k", "v")]) (.response resp200)
      = ⟨.ok resp200, [Effect.apiRequest "POST" "/objects" "application/json"]⟩
    ∧ SumoClient.post csTok 0 "/objects" (some [1]) (some []) (.response resp200)
      = ⟨.ok resp200, [Effect.apiRequest "POST" "/objects" "application/octet-stream"]⟩
    ∧ SumoClient.put csTok 0 "/objects" (some [1]) (some []) (.response resp200)
      = ⟨.ok resp200, [Effect.apiRequest "PUT" "/objects" "application/json"]⟩ := by
  have h := claim_C10_truthiness csTok 0 "/objects" "tok" [] resp200 (by rfl) (by decide)
  exact ⟨(h.1 (some [("k", "v")]) (by decide)).1,
         (h.2.1 (some [1]) (by decide)).1,
         (h.2.1 (some [1]) (by decide)).2.2.1⟩

end SumoWrapper
